import Mathlib

/-!
Shallow embedding of `ef_migrate_and_script.py`, an EF Core migration
script generator.  Pure string/list fragments of the script are translated
directly; external effects (subprocess execution, the filesystem, git) are
modelled as explicit parameters:

* the `.env` file is an `Option String` (absent / its text),
* the migrations directory is the `List String` of its filenames,
* the current git branch is a `String` parameter,
* external command execution is an oracle `ok : List String → Bool`
  telling which commands exit with status 0.

Python `str.strip`, dict insertion, `str.split('=', 1)`, the two regexes
`\bOS[-_](\d+)\b` and `^(\d{14})_(.+)\.cs$` (both IGNORECASE), and
`pathlib.Path.glob("*.cs")` (POSIX semantics: case-sensitive, dotfiles are
matched by `*`) are each modelled by an executable definition below.
Regex `$` is read as end-of-string and `.` as any character; this is exact
for filenames and branch names without newline characters.
-/

/-- Python `str.strip` whitespace class (ASCII part): space, tab, newline,
carriage return, vertical tab, form feed. -/
def pyIsSpace (c : Char) : Bool :=
  c == ' ' || c == '\t' || c == '\n' || c == '\r' || c == '\x0b' || c == '\x0c'

/-- Python `str.strip()`: drop leading and trailing whitespace. -/
def pyStrip (s : String) : String :=
  String.mk (((s.data.dropWhile pyIsSpace).reverse.dropWhile pyIsSpace).reverse)

/-- Splitting a text into lines at `\n`, accumulating the current line in
reverse. -/
def splitLinesAux : List Char → List Char → List String
  | [], acc => [String.mk acc.reverse]
  | c :: cs, acc =>
    if c = '\n' then String.mk acc.reverse :: splitLinesAux cs []
    else splitLinesAux cs (c :: acc)

/-- Iterating over a text file line by line (`for line in f`), modulo the
kept line terminators, which the subsequent `strip()` removes anyway. -/
def pyLines (text : String) : List String :=
  splitLinesAux text.data []

/-- Python `str.startswith` on the character-list representation. -/
def strStartsWith (s pre : String) : Bool :=
  s.data.take pre.data.length == pre.data

/-- Python `str.endswith` on the character-list representation. -/
def strEndsWith (s post : String) : Bool :=
  s.data.drop (s.data.length - post.data.length) == post.data
    && decide (post.data.length ≤ s.data.length)

/-- Parsing of one `.env` line, from the loop body of `load_env`:
strip, skip blank lines, comment lines and lines without `=`, split the
rest on the first `=`, and strip key and value. -/
def parseEnvLine (line : String) : Option (String × String) :=
  let l := pyStrip line
  if l != "" && !(strStartsWith l "#") && l.data.contains '=' then
    some (pyStrip (String.mk (l.data.takeWhile (fun c => c ≠ '='))),
          pyStrip (String.mk ((l.data.dropWhile (fun c => c ≠ '=')).drop 1)))
  else none

/-- Python dict assignment `d[k] = v` on an insertion-ordered
association list with distinct keys: replace the value of an existing
key in place, otherwise append. -/
def dictInsert : List (String × String) → String → String → List (String × String)
  | [], k, v => [(k, v)]
  | kv :: rest, k, v =>
    if kv.1 = k then (k, v) :: rest else kv :: dictInsert rest k v

/-- Python dict lookup on the association-list model. -/
def dictGet : List (String × String) → String → Option String
  | [], _ => none
  | kv :: rest, k => if kv.1 = k then some kv.2 else dictGet rest k

/-- First-of-two choice on optional values. -/
def orO (a b : Option String) : Option String :=
  match a with
  | some v => some v
  | none => b

/-- Value of the last parsed binding of a key in a list of bindings
(later entries override earlier ones). -/
def lastBinding : List (String × String) → String → Option String
  | [], _ => none
  | kv :: rest, k =>
    match lastBinding rest k with
    | some v => some v
    | none => if kv.1 = k then some kv.2 else none

/-- Error raised by `load_env` when the `.env` file is absent
(`FileNotFoundError` in the source). -/
inductive EnvError where
  | fileNotFound
deriving DecidableEq, Repr

/-- Body of the loop of `load_env`: parse one line and update the dict. -/
def envStep (d : List (String × String)) (line : String) : List (String × String) :=
  match parseEnvLine line with
  | some kv => dictInsert d kv.1 kv.2
  | none => d

/-- Loop of `load_env` over the lines of the file. -/
def load_env_lines (lines : List String) : List (String × String) :=
  lines.foldl envStep []

/-- The function `load_env`: `FileNotFoundError` if the file is absent,
otherwise the dict built from its lines. -/
def load_env (file : Option String) : Except EnvError (List (String × String)) :=
  match file with
  | none => .error .fileNotFound
  | some text => .ok (load_env_lines (pyLines text))

/-- POSIX `pathlib.Path.glob("*.cs")` as a filename predicate: `*` matches
any characters (including a leading dot), the extension is matched
case-sensitively. -/
def globCs (n : String) : Bool :=
  strEndsWith n ".cs"

/-- The generated-file filter of `list_migration_files`:
`n.endswith("Snapshot.cs") or n.endswith(".Designer.cs")`. -/
def isGeneratedName (n : String) : Bool :=
  strEndsWith n "Snapshot.cs" || strEndsWith n ".Designer.cs"

/-- The regex `MIGRATION_FILE_RE = ^(?P<ts>\d{14})_(?P<name>.+)\.cs$`
(IGNORECASE) as a match function returning the two groups: fourteen
digits, an underscore, a nonempty name, and a case-insensitive `.cs`
extension. -/
def matchMigCI (n : String) : Option (String × String) :=
  let cs := n.data
  let ts := cs.take 14
  let rest := cs.drop 14
  if (ts.length == 14 && ts.all Char.isDigit) = true then
    match rest with
    | '_' :: body =>
      if 4 ≤ body.length then
        if (body.drop (body.length - 3)).map Char.toLower = ['.', 'c', 's'] then
          some (String.mk ts, String.mk (body.take (body.length - 3)))
        else none
      else none
    | _ => none
  else none

/-- Body of the scan loop of `list_migration_files`: skip generated
snapshot/designer files, then match the migration filename regex. -/
def migOfName (n : String) : Option (String × String) :=
  if isGeneratedName n then none else matchMigCI n

/-- The function `list_migration_files` on the list of filenames present
in the migrations directory: glob `*.cs`, filter and parse each name, and
sort by the timestamp string (`items.sort(key=lambda x: x[0])`, a stable
sort). -/
def list_migration_files (names : List String) : List (String × String) :=
  ((names.filter globCs).filterMap migOfName).mergeSort (fun a b => a.1 ≤ b.1)

/-- Python regex word character (`\w`, ASCII part): letters, digits and
underscore. -/
def isWordChar (c : Char) : Bool :=
  c.isAlphanum || c == '_'

/-- Greedy `(\d+)\b` at the start of `rest`: a nonempty maximal digit run
that is followed by the end of the string or a non-word character.
Backtracking the greedy run cannot help, because any shorter run is
followed by a digit, which is a word character. -/
def osDigits (rest : List Char) : Option (List Char) :=
  let ds := rest.takeWhile Char.isDigit
  if ds.isEmpty then none
  else
    match rest.drop ds.length with
    | [] => some ds
    | c :: _ => if isWordChar c then none else some ds

/-- Attempt to match `OS[-_](\d+)\b` (IGNORECASE) at the head of the
character list. -/
def osMatchAt : List Char → Option (List Char)
  | o :: s :: sep :: rest =>
    if (o == 'O' || o == 'o') && (s == 'S' || s == 's') && (sep == '-' || sep == '_') then
      osDigits rest
    else none
  | _ => none

/-- Leftmost search for `\bOS[-_](\d+)\b`: at each position whose
predecessor is absent or a non-word character (the `\b` before `O`, which
is a word character), try to match; otherwise advance. -/
def osSearchAux : Option Char → List Char → Option (List Char)
  | _, [] => none
  | prev, c :: cs =>
    let atBoundary :=
      match prev with
      | none => true
      | some p => !isWordChar p
    match (if atBoundary then osMatchAt (c :: cs) else none) with
    | some ds => some ds
    | none => osSearchAux (some c) cs

/-- The search `OS_TICKET_RE.search(s)` returning the digits group, for
the regex `\bOS[-_](\d+)\b` with IGNORECASE. -/
def osTicketSearch (s : String) : Option String :=
  (osSearchAux none s.data).map String.mk

/-- The function `extract_ticket`: branch name, then latest migration
name, then the raw latest timestamp. -/
def extract_ticket (branch latest_name latest_ts : String) : String :=
  match osTicketSearch branch with
  | some t => t
  | none =>
    match osTicketSearch latest_name with
    | some t => t
    | none => latest_ts

/-- Decimal value of an ASCII digit character. -/
def digitVal (c : Char) : Nat :=
  c.toNat - 48

/-- Decimal value of a digit string given as a character list. -/
def digitsVal : List Char → Nat
  | [] => 0
  | c :: cs => digitVal c * 10 ^ cs.length + digitsVal cs

/-- Numeric (chronological) value of a timestamp string. -/
def tsVal (s : String) : Nat :=
  digitsVal s.data

/-- A 14-digit zero-padded timestamp string, the shape produced by the
`ts` group of the migration filename regex. -/
def isTimestampB (s : String) : Bool :=
  s.length == 14 && s.data.all Char.isDigit

/-- Python truthiness of an optional string argument (argparse gives
`None` when a flag is absent; an empty string is also falsy). -/
def pyTruthy : Option String → Bool
  | none => false
  | some s => s != ""

/-- Python `a or b` for an optional string `a` and a string `b`. -/
def pyOr (a : Option String) (b : String) : String :=
  match a with
  | none => b
  | some s => if s = "" then b else s

/-- Path join `dir / name` (POSIX separator). -/
def joinPath (d f : String) : String :=
  d ++ "/" ++ f

/-- The command-line arguments of the script that the planning phase
reads (`--create NAME, --no-script, --revert, --from, --to, --ticket,
--idempotent, --skip-build`). -/
structure Args where
  create : Option String
  no_script : Bool
  revert : Bool
  from_mig : Option String
  to_mig : Option String
  ticket : Option String
  idempotent : Bool
  skip_build : Bool
deriving DecidableEq, Repr

/-- Errors of the planning phase: `RuntimeError("Need at least two
migrations ...")`, and the impossible `IndexError` branch of the
list indexing. -/
inductive MainErr where
  | insufficientHistory
  | indexError
deriving DecidableEq, Repr

/-- The data `main` computes before invoking the build and script
commands: from/to migration identifiers, the ticket, the output SQL path,
and the fact that the scripts directory is created
(`scripts_dir.mkdir(parents=True, exist_ok=True)`). -/
structure Plan where
  from_id : String
  to_id : String
  ticket : String
  outputPath : String
  ensureScriptsDir : Bool
deriving DecidableEq, Repr

/-- Outcome of the planning phase of `main`: an early return after
`--create --no-script`, a warning-only early return when a fresh create
left fewer than two migrations, or a completed plan. -/
inductive Outcome where
  | skippedScript
  | insufficientWarning
  | plan (p : Plan)
deriving DecidableEq, Repr

/-- Lines 228-237 of `main`: swap from/to in revert mode, derive the
ticket (`args.ticket or extract_ticket(...)`, on the pre-swap latest
migration), and build the output path `<ticket>[_revert].sql` under the
scripts directory, which is created if absent. -/
def finishPlan (args : Args) (scriptsDir from0 to0 latest_ts latest_name branch : String) : Plan :=
  let fromId := if args.revert then to0 else from0
  let toId := if args.revert then from0 else to0
  let ticket := pyOr args.ticket (extract_ticket branch latest_name latest_ts)
  let sfx := if args.revert then "_revert" else ""
  { from_id := fromId
    to_id := toId
    ticket := ticket
    outputPath := joinPath scriptsDir (ticket ++ sfx ++ ".sql")
    ensureScriptsDir := true }

/-- The pure planning phase of `main` (lines 204-237), after the catalog
`files` has been listed and the git branch queried.  In create mode the
`migrations add` command has already run; `--no-script` then returns
early.  With fewer than two migrations and no truthy from/to overrides,
create mode warns and returns, script-only mode raises.  With both
overrides the identifiers are taken verbatim and the latest entry

defaults to `("latest", "latest")` on an empty catalog; otherwise the
last two entries give `<ts>_<name>` identifiers. -/
def runPlan (args : Args) (scriptsDir : String) (files : List (String × String))
    (branch : String) : Except MainErr Outcome :=
  if pyTruthy args.create && args.no_script then .ok .skippedScript
  else if decide (files.length < 2) && !(pyTruthy args.from_mig && pyTruthy args.to_mig) then
    if pyTruthy args.create then .ok .insufficientWarning
    else .error .insufficientHistory
  else if pyTruthy args.from_mig && pyTruthy args.to_mig then
    let last := files.getLastD ("latest", "latest")
    .ok (.plan (finishPlan args scriptsDir (args.from_mig.getD "") (args.to_mig.getD "")
      last.1 last.2 branch))
  else
    match files.getLast?, files[files.length - 2]? with
    | some lastm, some prev =>
      .ok (.plan (finishPlan args scriptsDir (prev.1 ++ "_" ++ prev.2)
        (lastm.1 ++ "_" ++ lastm.2) lastm.1 lastm.2 branch))
    | _, _ => .error .indexError

/-- The function `ef_cmd`: global or local dotnet-ef invocation. -/
def ef_cmd (mode : String) (args : List String) : List String :=
  (if mode = "global" then ["dotnet", "ef"] else ["dotnet", "tool", "run", "dotnet-ef"]) ++ args

/-- The function `add_context_arg`: append `--context` when a context is
configured (Python truthiness). -/
def add_context_arg (cmd : List String) (context : Option String) : List String :=
  if pyTruthy context then cmd ++ ["--context", context.getD ""] else cmd

/-- The `dotnet build` command of line 254. -/
def build_cmd (startup : String) : List String :=
  ["dotnet", "build", startup]

/-- The `migrations script` argument list of lines 256-265. -/
def mkScriptArgs (from_id to_id proj startup out : String) (context : Option String)
    (idempotent : Bool) : List String :=
  add_context_arg
    ["migrations", "script", from_id, to_id, "--project", proj,
     "--startup-project", startup, "--output", out] context
    ++ (if idempotent then ["--idempotent"] else [])

/-- Execution of one external command against the success oracle
(`run_stream` raises `RuntimeError` on a non-zero exit status). -/
def runCmd (ok : List String → Bool) (c : List String) : Except Unit Unit :=
  if ok c then .ok () else .error ()

/-- Lines 267-271 of `main`: run the script command; on failure append
`--no-build` and run it once more, propagating the retry's failure.
Returns the list of commands attempted (after `log`) and the result. -/
def emitScript (ok : List String → Bool) (log : List (List String)) (scriptCmd : List String) :
    List (List String) × Except Unit Unit :=
  match runCmd ok scriptCmd with
  | .ok _ => (log ++ [scriptCmd], .ok ())
  | .error _ =>
    let retryCmd := scriptCmd ++ ["--no-build"]
    (log ++ [scriptCmd, retryCmd], runCmd ok retryCmd)

/-- Lines 253-271 of `main`: unless `--skip-build`, run the build command
and propagate its failure without reaching the script command; then emit
the script with the single no-build retry. -/
def execPhase (ok : List String → Bool) (skipBuild : Bool) (buildCmd scriptCmd : List String) :
    List (List String) × Except Unit Unit :=
  if skipBuild then emitScript ok [] scriptCmd
  else
    match runCmd ok buildCmd with
    | .error e => ([buildCmd], .error e)
    | .ok _ => emitScript ok [buildCmd] scriptCmd

/-! ## Helper lemmas -/

/-- A falsy optional (absent flag or empty string) makes Python `or` take
its right operand. -/
theorem pyOr_falsy (a : Option String) (b : String) (h : pyTruthy a = false) :
    pyOr a b = b := by
  cases a with
  | none => rfl
  | some s =>
    simp only [pyTruthy, bne_eq_false_iff_eq] at h
    simp [pyOr, h]

/-- Characterisation of the snapshot/designer filter plus regex match. -/
theorem migOfName_eq_some (n : String) (p : String × String) :
    migOfName n = some p ↔ (isGeneratedName n = false ∧ matchMigCI n = some p) := by
  unfold migOfName
  cases h : isGeneratedName n <;> simp [h]

/-- Membership in the migration catalog: exactly the globbed, non-generated
filenames that match the migration regex. -/
theorem mem_list_migration_files (names : List String) (p : String × String) :
    p ∈ list_migration_files names ↔
      ∃ n, n ∈ names ∧ globCs n = true ∧ isGeneratedName n = false ∧ matchMigCI n = some p := by
  unfold list_migration_files
  rw [List.mem_mergeSort, List.mem_filterMap]
  constructor
  · rintro ⟨n, hn, hsome⟩
    rw [List.mem_filter] at hn
    obtain ⟨hgen, hm⟩ := (migOfName_eq_some n p).mp hsome
    exact ⟨n, hn.1, hn.2, hgen, hm⟩
  · rintro ⟨n, hn, hg, hgen, hm⟩
    exact ⟨n, List.mem_filter.mpr ⟨hn, hg⟩, (migOfName_eq_some n p).mpr ⟨hgen, hm⟩⟩

/-- The catalog is sorted by timestamp string (the sort key of
`items.sort(key=lambda x: x[0])`). -/
theorem catalog_pairwise_le (names : List String) :
    (list_migration_files names).Pairwise (fun a b => a.1 ≤ b.1) := by
  unfold list_migration_files
  have htrans : ∀ a b c : String × String,
      (decide (a.1 ≤ b.1)) = true → (decide (b.1 ≤ c.1)) = true → (decide (a.1 ≤ c.1)) = true := by
    intro a b c hab hbc
    simp only [decide_eq_true_eq] at *
    exact le_trans hab hbc
  have htotal : ∀ a b : String × String, (decide (a.1 ≤ b.1) || decide (b.1 ≤ a.1)) = true := by
    intro a b
    simpa using le_total a.1 b.1
  have h := List.sorted_mergeSort htrans htotal ((names.filter globCs).filterMap migOfName)
  exact h.imp (fun hab => of_decide_eq_true hab)

/-- Lookup after a dict insertion: the inserted key now maps to the new
value, all other keys are untouched. -/
theorem dictGet_dictInsert (d : List (String × String)) (k0 v0 k : String) :
    dictGet (dictInsert d k0 v0) k = if k0 = k then some v0 else dictGet d k := by
  induction d with
  | nil => simp [dictInsert, dictGet]
  | cons kv rest ih =>
    by_cases h1 : kv.1 = k0
    · by_cases h2 : k0 = k <;> simp [dictInsert, dictGet, h1, h2]
    · by_cases h2 : kv.1 = k
      · have h3 : ¬ k0 = k := fun he => h1 (h2.trans he.symm)
        have h4 : ¬ k = k0 := fun he => h3 he.symm
        simp [dictInsert, dictGet, h1, h2, h3, h4]
      · simp [dictInsert, dictGet, h1, h2, ih]

/-- Unfolding of `lastBinding` on a cons cell. -/
theorem lastBinding_cons (kv : String × String) (bs : List (String × String)) (k : String) :
    lastBinding (kv :: bs) k = orO (lastBinding bs k) (if kv.1 = k then some kv.2 else none) :=
  rfl

/-- Lookup in the dict built by the `load_env` loop continues an initial
dict with the last binding of each key among the parsed lines. -/
theorem dictGet_foldl_envStep (lines : List String) :
    ∀ (d : List (String × String)) (k : String),
      dictGet (lines.foldl envStep d) k =
        orO (lastBinding (lines.filterMap parseEnvLine) k) (dictGet d k) := by
  induction lines with
  | nil => intro d k; simp [lastBinding, orO]
  | cons line rest ih =>
    intro d k
    cases h : parseEnvLine line with
    | none =>
      simp only [List.foldl_cons, List.filterMap_cons, h, envStep]
      exact ih d k
    | some kv =>
      simp only [List.foldl_cons, List.filterMap_cons, h, envStep]
      rw [ih, lastBinding_cons]
      rw [dictGet_dictInsert]
      cases hl : lastBinding (rest.filterMap parseEnvLine) k with
      | some v => simp [orO]
      | none =>
        by_cases hk : kv.1 = k <;> simp [orO, hk]

/-- Lookup in the result of `load_env` is the last binding of the key
among the parsed lines. -/
theorem dictGet_load_env_lines (lines : List String) (k : String) :
    dictGet (load_env_lines lines) k = lastBinding (lines.filterMap parseEnvLine) k := by
  unfold load_env_lines
  rw [dictGet_foldl_envStep]
  cases lastBinding (lines.filterMap parseEnvLine) k <;> simp [orO, dictGet]

/-! ## Claims -/

/-- C4, counterexample.  The configuration file text `"A=1\nA=2"` has two
non-comment, non-blank `KEY=VALUE` lines, `A=1` (parsing to the pair
`("A", "1")`) and `A=2`, but the returned mapping holds only `("A", "2")`:
a Python dict cannot contain both values for the key, so the claim that
the mapping contains exactly those lines fails on duplicate keys. -/
theorem claim_load_env_counterexample :
    "A=1" ∈ pyLines "A=1\nA=2" ∧
    parseEnvLine "A=1" = some ("A", "1") ∧
    load_env (some "A=1\nA=2") = .ok [("A", "2")] ∧
    ("A", "1") ∉ [(("A" : String), ("2" : String))] := by
  exact ⟨by decide, rfl, rfl, by decide⟩

/-- C4, amended.  The Configuration Loader fails with the FileNotFound
error exactly when the configuration file is absent; a line contributes a
binding exactly when, after stripping, it is non-blank, does not start
with the comment marker and contains `=`, in which case the binding splits
it at the first `=` with key and value stripped; and the returned mapping
maps each key to the value of the last contributing line with that key
(absent keys map to nothing). -/
theorem claim_load_env_amended :
    (∀ file, load_env file = .error .fileNotFound ↔ file = none) ∧
    (∀ line k v, parseEnvLine line = some (k, v) ↔
      (pyStrip line ≠ "" ∧ strStartsWith (pyStrip line) "#" = false ∧
        (pyStrip line).data.contains '=' = true ∧
        k = pyStrip (String.mk ((pyStrip line).data.takeWhile (fun c => c ≠ '='))) ∧
        v = pyStrip (String.mk (((pyStrip line).data.dropWhile (fun c => c ≠ '=')).drop 1)))) ∧
    (∀ text d, load_env (some text) = .ok d →
      ∀ k, dictGet d k = lastBinding ((pyLines text).filterMap parseEnvLine) k) := by
  refine ⟨?_, ?_, ?_⟩
  · intro file
    cases file <;> simp [load_env]
  · intro line k v
    simp only [parseEnvLine]
    by_cases hC : (pyStrip line != "" && !(strStartsWith (pyStrip line) "#")
        && (pyStrip line).data.contains '=') = true
    · rw [if_pos hC]
      rw [Bool.and_eq_true, Bool.and_eq_true] at hC
      obtain ⟨⟨hne, hcm⟩, hct⟩ := hC
      simp only [Option.some.injEq, Prod.mk.injEq]
      constructor
      · rintro ⟨hk, hv⟩
        exact ⟨bne_iff_ne.mp hne, (by simpa using hcm : strStartsWith (pyStrip line) "#" = false), hct, hk.symm, hv.symm⟩
      · rintro ⟨_, _, _, hk, hv⟩
        exact ⟨hk.symm, hv.symm⟩
    · rw [if_neg hC]
      constructor
      · intro h
        exact absurd h (by simp)
      · rintro ⟨r1, r2, r3, _, _⟩
        refine absurd ?_ hC
        rw [Bool.and_eq_true, Bool.and_eq_true]
        exact ⟨⟨bne_iff_ne.mpr r1, (by simpa using r2 : (!strStartsWith (pyStrip line) "#") = true)⟩, r3⟩
  · intro text d h k
    have hd : d = load_env_lines (pyLines text) := by
      simpa [load_env] using h.symm
    rw [hd, dictGet_load_env_lines]

/-- C4, witness for the amended theorem at the text `"A=1\nB=2\nA=3"`:
the loader returns the dict `[("A", "3"), ("B", "2")]`, and lookup of
`"A"` agrees with the last binding among the parsed lines. -/
theorem claim_load_env_amended_witness :
    load_env (some "A=1\nB=2\nA=3") = .ok [("A", "3"), ("B", "2")] ∧
    dictGet [("A", "3"), ("B", "2")] "A" =
      lastBinding ((pyLines "A=1\nB=2\nA=3").filterMap parseEnvLine) "A" :=
  ⟨rfl, claim_load_env_amended.2.2 "A=1\nB=2\nA=3" [("A", "3"), ("B", "2")] rfl "A"⟩

/-- C2, counterexample.  The claimed evaluation
`extract_ticket "main" "OS_456_AddTable" "20240101000000" = "456"` is
false on the code: the regex `\bOS[-_](\d+)\b` requires a word boundary
after the digits, and the underscore following `456` is a word character,
so the search fails and the timestamp fallback is returned. -/
theorem claim_extract_ticket_counterexample :
    extract_ticket "main" "OS_456_AddTable" "20240101000000" = "20240101000000" ∧
    extract_ticket "main" "OS_456_AddTable" "20240101000000" ≠ "456" := by
  exact ⟨rfl, by decide⟩

/-- C2, amended.  `extract_ticket` is a pure function of its three string
inputs obeying the priority order of `OS_TICKET_RE.search` (the pattern
`\bOS[-_](\d+)\b`, case-insensitive and word-bounded on both sides):
digits found in the branch name win, else digits found in the latest
migration name, else the latest timestamp string is returned.  The second
example is corrected: `"OS_456_AddTable"` does not match the pattern
(the digits are followed by `_`, a word character), while a migration
name such as `"OS_456"` does. -/
theorem claim_extract_ticket_amended :
    (∀ b n ts t, osTicketSearch b = some t → extract_ticket b n ts = t) ∧
    (∀ b n ts t, osTicketSearch b = none → osTicketSearch n = some t →
      extract_ticket b n ts = t) ∧
    (∀ b n ts, osTicketSearch b = none → osTicketSearch n = none →
      extract_ticket b n ts = ts) ∧
    extract_ticket "feature/OS-123-x" "AddTable" "20240101000000" = "123" ∧
    extract_ticket "main" "OS_456" "20240101000000" = "456" ∧
    extract_ticket "main" "AddTable" "20240101000000" = "20240101000000" := by
  refine ⟨?_, ?_, ?_, rfl, rfl, rfl⟩
  · intro b n ts t h
    unfold extract_ticket
    rw [h]
  · intro b n ts t h1 h2
    unfold extract_ticket
    rw [h1, h2]
  · intro b n ts h1 h2
    unfold extract_ticket
    rw [h1, h2]

/-- C2, witness for the amended theorem: a branch-name match takes
priority and yields the digits. -/
theorem claim_extract_ticket_amended_witness :
    osTicketSearch "feature/OS-777" = some "777" ∧
    extract_ticket "feature/OS-777" "AddTable" "20240101000000" = "777" :=
  ⟨rfl, claim_extract_ticket_amended.1 "feature/OS-777" "AddTable" "20240101000000" "777" rfl⟩

/-- C3, counterexample.  The filename `20240101000000_Init.CS` matches the
case-insensitive migration regex and ends in neither generated-file
suffix, so the claim includes it in the catalog; but the directory scan
`glob("*.cs")` is case-sensitive (POSIX), so the code excludes it and the
catalog is empty. -/
theorem claim_catalog_counterexample :
    list_migration_files ["20240101000000_Init.CS"] = [] ∧
    matchMigCI "20240101000000_Init.CS" = some ("20240101000000", "Init") ∧
    isGeneratedName "20240101000000_Init.CS" = false := by
  refine ⟨?_, rfl, rfl⟩
  unfold list_migration_files
  rw [show List.filter globCs ["20240101000000_Init.CS"] = [] from rfl]
  rw [show List.filterMap migOfName [] = [] from rfl]
  exact List.mergeSort_nil

/-- C3, amended.  For every list of filenames in the migrations directory
the catalog is sorted ascending by timestamp string, and it contains a
`(timestamp, name)` pair exactly when some filename passes the
case-sensitive `*.cs` glob, does not end with the snapshot suffix
`Snapshot.cs` or the designer suffix `.Designer.cs`, and matches the
case-insensitive migration pattern with those two groups.  (The glob
condition is the amendment: a name matching the pattern only via an
upper-case extension is excluded by the code.) -/
theorem claim_catalog_amended (names : List String) :
    (list_migration_files names).Pairwise (fun a b => a.1 ≤ b.1) ∧
    ∀ p, p ∈ list_migration_files names ↔
      ∃ n, n ∈ names ∧ globCs n = true ∧ isGeneratedName n = false ∧ matchMigCI n = some p :=
  ⟨catalog_pairwise_le names, fun p => mem_list_migration_files names p⟩

/-- C3, witness for the amended theorem at a concrete directory listing. -/
theorem claim_catalog_amended_witness :
    (list_migration_files
        ["20240102000000_B.cs", "20240101000000_A.cs", "Model.Snapshot.cs"]).Pairwise
      (fun a b => a.1 ≤ b.1) ∧
    ∀ p, p ∈ list_migration_files
        ["20240102000000_B.cs", "20240101000000_A.cs", "Model.Snapshot.cs"] ↔
      ∃ n, n ∈ ["20240102000000_B.cs", "20240101000000_A.cs", "Model.Snapshot.cs"] ∧
        globCs n = true ∧ isGeneratedName n = false ∧ matchMigCI n = some p :=
  claim_catalog_amended ["20240102000000_B.cs", "20240101000000_A.cs", "Model.Snapshot.cs"]

/-- C5.  With fewer than two catalog entries and no truthy from/to
overrides, the planning phase raises the RuntimeError-class
InsufficientHistory error in script-only mode, but in create mode (a
fresh migration was just created, and script generation was not skipped)
it returns the warning outcome without raising. -/
theorem claim_insufficient_history (args : Args) (sd : String)
    (files : List (String × String)) (branch : String)
    (hlen : files.length < 2)
    (hov : (pyTruthy args.from_mig && pyTruthy args.to_mig) = false) :
    (pyTruthy args.create = false →
      runPlan args sd files branch = .error .insufficientHistory) ∧
    (pyTruthy args.create = true → args.no_script = false →
      runPlan args sd files branch = .ok .insufficientWarning) := by
  constructor
  · intro hc
    unfold runPlan
    simp [hc, hov, hlen]
  · intro hc hns
    unfold runPlan
    simp [hc, hns, hov, hlen]

/-- C5, witness: one migration, no overrides; script-only mode errors,
create mode warns. -/
theorem claim_insufficient_history_witness :
    ([(("20240101000000" : String), ("Init" : String))].length < 2) ∧
    runPlan ⟨none, false, false, none, none, none, false, false⟩ "s"
      [("20240101000000", "Init")] "b" = .error .insufficientHistory ∧
    runPlan ⟨some "New", false, false, none, none, none, false, false⟩ "s"
      [("20240101000000", "Init")] "b" = .ok .insufficientWarning :=
  ⟨by decide,
    (claim_insufficient_history ⟨none, false, false, none, none, none, false, false⟩ "s"
      [("20240101000000", "Init")] "b" (by decide) rfl).1 rfl,
    (claim_insufficient_history ⟨some "New", false, false, none, none, none, false, false⟩ "s"
      [("20240101000000", "Init")] "b" (by decide) rfl).2 rfl rfl⟩

/-- C6.  Once the script-emission step is reached (build skipped or
successful): if the script command succeeds it is run exactly once and no
retry occurs; if it fails, it is retried exactly once with `--no-build`
appended to the same command, and the CommandFailed error is raised
exactly when that single retry also fails. -/
theorem claim_script_retry (ok : List String → Bool) (skipBuild : Bool)
    (buildCmd scriptCmd : List String)
    (hreach : skipBuild = true ∨ ok buildCmd = true) :
    (ok scriptCmd = true →
      execPhase ok skipBuild buildCmd scriptCmd =
        ((if skipBuild then [] else [buildCmd]) ++ [scriptCmd], .ok ())) ∧
    (ok scriptCmd = false →
      execPhase ok skipBuild buildCmd scriptCmd =
        ((if skipBuild then [] else [buildCmd]) ++ [scriptCmd, scriptCmd ++ ["--no-build"]],
          if ok (scriptCmd ++ ["--no-build"]) then Except.ok () else Except.error ())) := by
  cases skipBuild with
  | true =>
    constructor <;> intro h <;> simp [execPhase, emitScript, runCmd, h]
  | false =>
    rcases hreach with h | h
    · exact absurd h (by simp)
    · constructor <;> intro hs <;> simp [execPhase, emitScript, runCmd, h, hs]

/-- C6, witness: build succeeds, the script command fails, the one retry
with `--no-build` appended also fails, and the failure propagates. -/
theorem claim_script_retry_witness :
    ((fun c => c == (["b"] : List String)) (["s"] : List String) = false) ∧
    execPhase (fun c => c == ["b"]) false ["b"] ["s"] =
      ([["b"], ["s"], ["s", "--no-build"]], Except.error ()) :=
  ⟨rfl,
    ((claim_script_retry (fun c => c == ["b"]) false ["b"] ["s"] (Or.inr rfl)).2 rfl).trans rfl⟩

/-- C7.  When the build step runs (skip-build not requested) and the
external build command fails, the failure is fatal: the only command
attempted is the build command (the script-emission command is never
invoked, so there is no retry) and the error propagates. -/
theorem claim_build_fatal (ok : List String → Bool) (buildCmd scriptCmd : List String)
    (hfail : ok buildCmd = false) :
    execPhase ok false buildCmd scriptCmd = ([buildCmd], Except.error ()) := by
  simp [execPhase, runCmd, hfail]

/-- C7, witness: a failing build command with the source's
`dotnet build <startup>` shape; only the build command is attempted. -/
theorem claim_build_fatal_witness :
    ((fun _ => false) (build_cmd "Startup") = false) ∧
    execPhase (fun _ => false) false (build_cmd "Startup") ["migrations", "script"] =
      ([build_cmd "Startup"], Except.error ()) :=
  ⟨rfl, claim_build_fatal (fun _ => false) (build_cmd "Startup") ["migrations", "script"] rfl⟩

/-- C1.  In script-generation mode (no truthy create, so creation is not
in play) with no truthy from/to overrides and a catalog of at least two
entries, the from identifier is `<ts>_<name>` of the second-to-last entry
and the to identifier `<ts>_<name>` of the last entry; when revert mode
is requested they are swapped after this computation, while the ticket is
still derived from the forward-latest entry `q` (the pre-swap last
catalog entry), not from the swapped target. -/
theorem claim_from_to_revert_swap (args : Args) (sd : String)
    (pre : List (String × String)) (p q : String × String) (branch : String)
    (hcreate : pyTruthy args.create = false)
    (hov : (pyTruthy args.from_mig && pyTruthy args.to_mig) = false)
    (htk : pyTruthy args.ticket = false) :
    runPlan args sd (pre ++ [p, q]) branch =
      .ok (.plan
        { from_id := if args.revert then q.1 ++ "_" ++ q.2 else p.1 ++ "_" ++ p.2
          to_id := if args.revert then p.1 ++ "_" ++ p.2 else q.1 ++ "_" ++ q.2
          ticket := extract_ticket branch q.2 q.1
          outputPath := joinPath sd (extract_ticket branch q.2 q.1 ++
            (if args.revert then "_revert" else "") ++ ".sql")
          ensureScriptsDir := true }) := by
  have hlast : (pre ++ [p, q]).getLast? = some q := by
    rw [show pre ++ [p, q] = (pre ++ [p]) ++ [q] by simp]
    exact List.getLast?_concat _
  have hlen : (pre ++ [p, q]).length = pre.length + 2 := by simp
  have hidx : (pre ++ [p, q]).length - 2 = pre.length := by omega
  have hprev : (pre ++ [p, q])[(pre ++ [p, q]).length - 2]? = some p := by
    rw [hidx, List.getElem?_append_right (le_refl pre.length)]
    simp
  have h2 : decide ((pre ++ [p, q]).length < 2) = false := by
    simp only [decide_eq_false_iff_not, hlen]
    omega
  unfold runPlan
  rw [hcreate, h2, hov, hlast, hprev]
  simp only [Bool.false_and, Bool.and_self, if_false, Bool.false_eq_true]
  unfold finishPlan
  rw [pyOr_falsy args.ticket _ htk]

/-- C1, witness at the spec's example catalog with revert requested:
from/to are swapped relative to the forward computation, and the ticket
comes from the forward-latest entry `("20240102000000", "AddTable")`. -/
theorem claim_from_to_revert_swap_witness :
    runPlan ⟨none, false, true, none, none, none, false, false⟩ "scripts"
      [("20240101000000", "Init"), ("20240102000000", "AddTable")] "main" =
      .ok (.plan
        { from_id := "20240102000000_AddTable"
          to_id := "20240101000000_Init"
          ticket := "20240102000000"
          outputPath := "scripts/20240102000000_revert.sql"
          ensureScriptsDir := true }) := by
  have h := claim_from_to_revert_swap ⟨none, false, true, none, none, none, false, false⟩
    "scripts" [] ("20240101000000", "Init") ("20240102000000", "AddTable") "main" rfl rfl rfl
  exact h.trans rfl

/-- C9.  Every run that reaches script generation outputs to the
configured scripts directory joined with `<ticket>.sql`, with `_revert`
inserted before the extension exactly when revert mode is requested, and
requests creation of the scripts directory. -/
theorem claim_output_path (args : Args) (sd : String) (files : List (String × String))
    (branch : String) (P : Plan)
    (h : runPlan args sd files branch = .ok (.plan P)) :
    P.outputPath = joinPath sd (P.ticket ++ (if args.revert then "_revert" else "") ++ ".sql") ∧
    P.ensureScriptsDir = true := by
  unfold runPlan at h
  repeat' split at h
  all_goals
    first
      | (simp only [Except.ok.injEq, Outcome.plan.injEq] at h
         subst h
         exact ⟨rfl, rfl⟩)
      | simp at h

/-- C9, witness: a concrete forward run; the output path is the scripts
directory joined with the ticket and `.sql`, and the directory creation
is requested. -/
theorem claim_output_path_witness :
    runPlan ⟨none, false, false, none, none, none, false, false⟩ "scripts"
      [("20240101000000", "Init"), ("20240102000000", "AddTable")] "main" =
      .ok (.plan
        { from_id := "20240101000000_Init"
          to_id := "20240102000000_AddTable"
          ticket := "20240102000000"
          outputPath := "scripts/20240102000000.sql"
          ensureScriptsDir := true }) ∧
    ("scripts/20240102000000.sql" : String) =
      joinPath "scripts" ("20240102000000" ++ (if false then "_revert" else "") ++ ".sql") ∧
    True := by
  refine ⟨rfl, ?_, trivial⟩
  have h := claim_output_path ⟨none, false, false, none, none, none, false, false⟩ "scripts"
    [("20240101000000", "Init"), ("20240102000000", "AddTable")] "main"
    ⟨"20240101000000_Init", "20240102000000_AddTable", "20240102000000",
      "scripts/20240102000000.sql", true⟩ rfl
  exact h.1

/-- C10.  With truthy from and to overrides and an empty catalog, the
latest timestamp and name used for ticket derivation both default to the
literal string `"latest"`; with no truthy ticket override and no ticket
pattern in the branch name, the derived ticket and hence the output
filename stem is `"latest"`. -/
theorem claim_latest_fallback (args : Args) (sd branch : String)
    (hfrom : pyTruthy args.from_mig = true) (hto : pyTruthy args.to_mig = true)
    (hns : args.no_script = false) (htk : pyTruthy args.ticket = false)
    (hbr : osTicketSearch branch = none) :
    runPlan args sd [] branch =
      .ok (.plan
        { from_id := if args.revert then args.to_mig.getD "" else args.from_mig.getD ""
          to_id := if args.revert then args.from_mig.getD "" else args.to_mig.getD ""
          ticket := "latest"
          outputPath := joinPath sd ("latest" ++ (if args.revert then "_revert" else "") ++ ".sql")
          ensureScriptsDir := true }) := by
  have het : extract_ticket branch "latest" "latest" = "latest" := by
    unfold extract_ticket
    rw [hbr, show osTicketSearch "latest" = none from rfl]
  unfold runPlan
  rw [hns, hfrom, hto]
  simp only [Bool.and_false, Bool.and_self, Bool.not_true, Bool.and_true,
    Bool.false_eq_true, if_false, and_self, if_true]
  rw [show ([] : List (String × String)).getLastD ("latest", "latest") = ("latest", "latest")
    from rfl]
  unfold finishPlan
  rw [pyOr_falsy args.ticket _ htk]
  simp [het]

/-- C10, witness: overrides `--from A --to B` with an empty catalog and
branch `main` give ticket `latest` and output `scripts/latest.sql`. -/
theorem claim_latest_fallback_witness :
    pyTruthy (some "A") = true ∧ osTicketSearch "main" = none ∧
    runPlan ⟨none, false, false, some "A", some "B", none, false, false⟩ "scripts" [] "main" =
      .ok (.plan
        { from_id := "A", to_id := "B", ticket := "latest",
          outputPath := "scripts/latest.sql", ensureScriptsDir := true }) :=
  ⟨rfl, rfl,
    (claim_latest_fallback ⟨none, false, false, some "A", some "B", none, false, false⟩
      "scripts" "main" rfl rfl rfl rfl rfl).trans rfl⟩

/-- Decoded bounds of an ASCII digit character. -/
theorem isDigit_bounds (c : Char) (h : c.isDigit = true) : 48 ≤ c.toNat ∧ c.toNat ≤ 57 := by
  simp [Char.isDigit] at h
  exact ⟨h.1, h.2⟩

/-- Character order on digits agrees with digit values. -/
theorem char_lt_iff_digitVal (c d : Char) (hc : c.isDigit = true) (hd : d.isDigit = true) :
    c < d ↔ digitVal c < digitVal d := by
  obtain ⟨hc1, hc2⟩ := isDigit_bounds c hc
  obtain ⟨hd1, hd2⟩ := isDigit_bounds d hd
  rw [show (c < d ↔ c.toNat < d.toNat) from Iff.rfl]
  unfold digitVal
  omega

/-- The value of a digit string is below the power of ten of its width. -/
theorem digitsVal_lt_pow (l : List Char) (h : l.all Char.isDigit = true) :
    digitsVal l < 10 ^ l.length := by
  induction l with
  | nil => simp [digitsVal]
  | cons c cs ih =>
    rw [List.all_cons, Bool.and_eq_true] at h
    obtain ⟨h9a, h9b⟩ := isDigit_bounds c h.1
    have h9 : digitVal c ≤ 9 := by unfold digitVal; omega
    have hv := ih h.2
    simp only [digitsVal, List.length_cons, pow_succ]
    calc digitVal c * 10 ^ cs.length + digitsVal cs
        < digitVal c * 10 ^ cs.length + 10 ^ cs.length := by omega
      _ = (digitVal c + 1) * 10 ^ cs.length := by ring
      _ ≤ 10 * 10 ^ cs.length := Nat.mul_le_mul_right _ (by omega)
      _ = 10 ^ cs.length * 10 := by ring

/-- Positional comparison: a strictly smaller leading block dominates. -/
theorem block_lt (a b v1 v2 N : Nat) (hv1 : v1 < N) (hab : a < b) :
    a * N + v1 < b * N + v2 := by
  calc a * N + v1 < a * N + N := by omega
    _ = (a + 1) * N := by ring
    _ ≤ b * N := Nat.mul_le_mul_right _ (by omega)
    _ ≤ b * N + v2 := Nat.le_add_right _ _

/-- Lexicographic order on equal-width digit strings agrees with their
decimal values. -/
theorem digits_lt_iff_val : ∀ l1 l2 : List Char, l1.length = l2.length →
    l1.all Char.isDigit = true → l2.all Char.isDigit = true →
    (l1 < l2 ↔ digitsVal l1 < digitsVal l2) := by
  intro l1
  induction l1 with
  | nil =>
    intro l2 hlen _ _
    cases l2 with
    | nil =>
      constructor
      · intro h; cases h
      · intro h; simp [digitsVal] at h
    | cons c cs => simp at hlen
  | cons c1 r1 ih =>
    intro l2 hlen h1 h2
    cases l2 with
    | nil => simp at hlen
    | cons c2 r2 =>
      rw [List.length_cons, List.length_cons] at hlen
      have hlen' : r1.length = r2.length := by omega
      rw [List.all_cons, Bool.and_eq_true] at h1 h2
      have hciff := char_lt_iff_digitVal c1 c2 h1.1 h2.1
      have hv1 : digitsVal r1 < 10 ^ r2.length := hlen' ▸ digitsVal_lt_pow r1 h1.2
      have hv2 : digitsVal r2 < 10 ^ r1.length := hlen'.symm ▸ digitsVal_lt_pow r2 h2.2
      have hih := ih r2 hlen' h1.2 h2.2
      constructor
      · intro h
        cases h with
        | rel hlt =>
          simp only [digitsVal]
          rw [hlen']
          exact block_lt _ _ _ _ _ hv1 (hciff.mp hlt)
        | cons htl =>
          have hv := hih.mp htl
          simp only [digitsVal]
          rw [hlen']
          omega
      · intro hv
        rcases lt_trichotomy c1 c2 with hlt | heq | hgt
        · exact List.Lex.rel hlt
        · subst heq
          refine List.Lex.cons (hih.mpr ?_)
          simp only [digitsVal] at hv
          rw [hlen'] at hv
          omega
        · exfalso
          have hrev : digitsVal (c2 :: r2) < digitsVal (c1 :: r1) := by
            simp only [digitsVal]
            rw [← hlen']
            exact block_lt _ _ _ _ _ hv2
              ((char_lt_iff_digitVal c2 c1 h2.1 h1.1).mp hgt)
          exact Nat.lt_asymm hv hrev

/-- Every catalog entry carries a 14-digit timestamp, by inversion of the
migration filename regex. -/
theorem catalog_mem_timestamp (names : List String) (p : String × String)
    (h : p ∈ list_migration_files names) : isTimestampB p.1 = true := by
  obtain ⟨n, _, _, _, hm⟩ := (mem_list_migration_files names p).mp h
  simp only [matchMigCI] at hm
  split at hm
  · split at hm
    · split at hm
      · split at hm
        · simp only [Option.some.injEq] at hm
          subst hm
          assumption
        · simp at hm
      · simp at hm
    · simp at hm
  · simp at hm

/-- C8.  For 14-digit zero-padded timestamp strings, lexical string order
(and its reflexive closure) agrees with numeric chronological order; as a
consequence the catalog produced by `list_migration_files`, sorted by
timestamp string, is sorted chronologically (by numeric timestamp value)
for every directory listing. -/
theorem claim_ts_order :
    (∀ s t : String, isTimestampB s = true → isTimestampB t = true →
      ((s < t ↔ tsVal s < tsVal t) ∧ (s ≤ t ↔ tsVal s ≤ tsVal t))) ∧
    (∀ names, (list_migration_files names).Pairwise (fun a b => tsVal a.1 ≤ tsVal b.1)) := by
  have hmain : ∀ s t : String, isTimestampB s = true → isTimestampB t = true →
      (s < t ↔ tsVal s < tsVal t) := by
    intro s t hs ht
    rw [isTimestampB, Bool.and_eq_true] at hs ht
    have hs1 : s.length = 14 := by simpa using hs.1
    have ht1 : t.length = 14 := by simpa using ht.1
    have hlen : s.data.length = t.data.length := by
      rw [show s.data.length = s.length from rfl, show t.data.length = t.length from rfl,
        hs1, ht1]
    rw [String.lt_iff_toList_lt]
    exact digits_lt_iff_val s.data t.data hlen hs.2 ht.2
  have hle : ∀ s t : String, isTimestampB s = true → isTimestampB t = true →
      (s ≤ t ↔ tsVal s ≤ tsVal t) := by
    intro s t hs ht
    constructor
    · intro h
      by_contra hc
      push_neg at hc
      exact absurd ((hmain t s ht hs).mpr hc) (not_lt.mpr h)
    · intro h
      by_contra hc
      exact absurd ((hmain t s ht hs).mp (not_le.mp hc)) (not_lt.mpr h)
  refine ⟨fun s t hs ht => ⟨hmain s t hs ht, hle s t hs ht⟩, ?_⟩
  intro names
  have hp := catalog_pairwise_le names
  refine hp.imp_of_mem ?_
  intro a b ha hb hr
  exact (hle a.1 b.1 (catalog_mem_timestamp names a ha) (catalog_mem_timestamp names b hb)).mp hr

/-- C8, witness at two concrete timestamps. -/
theorem claim_ts_order_witness :
    isTimestampB "20240101000000" = true ∧ isTimestampB "20240102000000" = true ∧
    (("20240101000000" : String) < "20240102000000" ↔
      tsVal "20240101000000" < tsVal "20240102000000") :=
  ⟨by decide, by decide,
    (claim_ts_order.1 "20240101000000" "20240102000000" (by decide) (by decide)).1⟩
